import Mathlib

/-!
Verification development for the ISRC cross-referencing script (`src/main.py`).

The script is a linear pipeline:
  1. `load_or_create_isrc_set` builds or restores a set of ISRC strings from a
     tab-separated reference file, memoised in a pickle cache artifact;
  2. `get_artist_catalog_fast` fetches the track catalog of an artist from the
     Spotify API (paginated album listing, per-album track listing, batched
     track-detail lookup in chunks of 50);
  3. `main` filters the catalog to rows with a non-null ISRC, intersects
     against the reference set, and writes a two-sheet spreadsheet.

The embedding below models the data the script manipulates (rows of the
reference file, track records, the filesystem state the loader touches, the
fallible API surface the fetcher calls) and the control flow of each function,
including which statements sit inside which `try` block.
-/

/-- A data row of the tab-separated reference file, as `csv.DictReader`
presents it: an association from header names to cell values.
The Python expression row.get applied to the ISRC column is modelled by `List.lookup "ISRC"` (returns `none` when
the column is absent). -/
abbrev Row := List (String × String)

/-- One iteration of the scan loop in `load_or_create_isrc_set`
(lines 45-48 of `src/main.py`): read the ISRC cell, and add it when truthy.
Python truthiness of a string: `None` and the empty string are falsy. -/
def addIsrc (s : Finset String) (row : Row) : Finset String :=
  match row.lookup "ISRC" with
  | some i => if i = "" then s else insert i s
  | none => s

/-- The full scan of the data rows of the reference file (lines 40-48):
fold the per-row step over the rows, starting from the empty set. -/
def buildIsrcSet (rows : List Row) : Finset String :=
  rows.foldl addIsrc ∅

/-- Contents of the cache artifact at `cache_path`: either a valid pickle of
a set of strings, or bytes that make `pickle.load` raise. -/
inductive CacheArtifact
  | valid (s : Finset String)
  | corrupt
deriving DecidableEq

/-- Contents of the reference file at `tsv_path`: either a well-formed
tab-separated file presented as its data rows, or contents on which the
scan raises (e.g. a UTF-8 decoding error). -/
inductive RefFile
  | wellFormed (rows : List Row)
  | malformed
deriving DecidableEq

/-- The filesystem state `load_or_create_isrc_set` interacts with:
the cache artifact (`none` = file does not exist), the reference file
(`none` = file does not exist, giving `FileNotFoundError`), and whether
writing the cache artifact will succeed. -/
structure FsState where
  cache : Option CacheArtifact
  refFile : Option RefFile
  cacheWriteOk : Bool
deriving DecidableEq

/-- Outcome of calling a Python function: a returned value, or an
exception propagating uncaught out of the call. -/
inductive PyResult (α : Type)
  | ret (val : α)
  | exn
deriving DecidableEq

/-- `load_or_create_isrc_set(tsv_path, cache_path)` (lines 24-61).
Returns the outcome of the call together with the filesystem state afterwards.

Control flow mirrors the source:
- if the cache artifact exists (line 30), unpickle and return it; this
  branch is OUTSIDE the `try` block, so a corrupt artifact raises uncaught;
- otherwise the `try` block (lines 39-55) scans the reference file, writes
  the fresh set to the cache, and returns it;
- `FileNotFoundError` and any other exception inside the `try` (absent or
  malformed reference file, failed cache write) are caught, printed, and
  turned into a `None` return (lines 56-61). A failed cache write may leave
  a partial artifact on disk; the model leaves the cache field unchanged,
  which no claim depends on. -/
def load_or_create_isrc_set (st : FsState) :
    PyResult (Option (Finset String)) × FsState :=
  match st.cache with
  | some (.valid s) => (.ret (some s), st)
  | some .corrupt => (.exn, st)
  | none =>
    match st.refFile with
    | none => (.ret none, st)
    | some .malformed => (.ret none, st)
    | some (.wellFormed rows) =>
      let s := buildIsrcSet rows
      if st.cacheWriteOk then
        (.ret (some s), ⟨some (.valid s), st.refFile, st.cacheWriteOk⟩)
      else
        (.ret none, st)

/-- A track-detail object from a batched `sp.tracks` response:
the fields the script reads (lines 86-91). `external_ids_isrc` models
the isrc entry of the external_ids mapping of the detail, absent when either level is missing. -/
structure TrackDetail where
  name : String
  album_name : String
  album_release_date : String
  external_ids_isrc : Option String
deriving DecidableEq

/-- One row of the catalog table: the dict appended at lines 87-92. -/
structure TrackRecord where
  track_name : String
  album : String
  release_date : String
  isrc : Option String
deriving DecidableEq

/-- The row built from one track-detail object (lines 86-92). -/
def extractRecord (td : TrackDetail) : TrackRecord :=
  ⟨td.name, td.album_name, td.album_release_date, td.external_ids_isrc⟩

/-- The inner loop over one batch response (lines 84-92): each absent
(`None`) entry is skipped by the `if track_details:` guard; each present
entry contributes one record, in response order. -/
def processBatchResponse : List (Option TrackDetail) → List TrackRecord
  | [] => []
  | some td :: rest => extractRecord td :: processBatchResponse rest
  | none :: rest => processBatchResponse rest

/-- The batching of the collected track ids (line 81-82):
`all_track_ids[i:i+50]` for `i in range(0, len(all_track_ids), 50)`. -/
def batchChunks : List String → List (List String)
  | [] => []
  | a :: rest => ((a :: rest).take 50) :: batchChunks (rest.drop 49)
termination_by l => l.length
decreasing_by
  simp only [List.length_drop, List.length_cons]
  omega

/-- An album item of the paginated `artist_albums` listing: the script
only reads its `id` (line 76). -/
structure Album where
  id : String
deriving DecidableEq

/-- The sequence of pages the paginated release listing yields
(lines 70-74): each page carries its items and either signals no further
page (the next field of the response is falsy) or carries the outcome of the `sp.next`
call — which may itself raise mid-pagination. -/
inductive PageSeq (α : Type)
  | last (items : List α)
  | more (items : List α) (next : Except Unit (PageSeq α))

/-- The pagination loop (lines 71-74): accumulate items page by page;
an error from any `sp.next` call aborts the whole collection. -/
def collectPages {α : Type} : PageSeq α → Except Unit (List α)
  | .last items => .ok items
  | .more _ (.error e) => .error e
  | .more items (.ok rest) =>
    match collectPages rest with
    | .error e => .error e
    | .ok xs => .ok (items ++ xs)

/-- The external surface `get_artist_catalog_fast` calls, each call
fallible: client-credential authentication, the first `artist_albums`
page (whose successors live inside the `PageSeq`), `album_tracks` keyed
by album id (yielding the track ids of the album, line 76-78), and the
batched `sp.tracks` lookup (line 83). -/
structure FetchEnv where
  auth : Except Unit Unit
  firstAlbumsPage : Except Unit (PageSeq Album)
  albumTracks : String → Except Unit (List String)
  tracksBatch : List String → Except Unit (List (Option TrackDetail))

/-- The loop over albums collecting every track id (lines 75-78):
any `album_tracks` error aborts the collection. -/
def collectTrackIds (env : FetchEnv) : List Album → Except Unit (List String)
  | [] => .ok []
  | a :: rest =>
    match env.albumTracks a.id with
    | .error e => .error e
    | .ok ts =>
      match collectTrackIds env rest with
      | .error e => .error e
      | .ok more => .ok (ts ++ more)

/-- The loop over batches (lines 81-92): the response of each batch is
processed by `processBatchResponse`; any `sp.tracks` error aborts. -/
def processChunks (env : FetchEnv) : List (List String) → Except Unit (List TrackRecord)
  | [] => .ok []
  | c :: rest =>
    match env.tracksBatch c with
    | .error e => .error e
    | .ok resp =>
      match processChunks env rest with
      | .error e => .error e
      | .ok more => .ok (processBatchResponse resp ++ more)

/-- The body of the `try` block of `get_artist_catalog_fast`
(lines 67-93): authenticate, list albums across all pages, collect track
ids album by album, then fetch details in batches of 50. -/
def fetchBody (env : FetchEnv) : Except Unit (List TrackRecord) :=
  match env.auth with
  | .error e => .error e
  | .ok _ =>
    match env.firstAlbumsPage with
    | .error e => .error e
    | .ok pages =>
      match collectPages pages with
      | .error e => .error e
      | .ok albums =>
        match collectTrackIds env albums with
        | .error e => .error e
        | .ok ids => processChunks env (batchChunks ids)

/-- `get_artist_catalog_fast(artist_uri)` (lines 64-96): the whole body
is wrapped in `try/except Exception`, so any raised error becomes a
printed message and a `None` return (lines 94-96). -/
def get_artist_catalog_fast (env : FetchEnv) : Option (List TrackRecord) :=
  match fetchBody env with
  | .ok recs => some recs
  | .error _ => none

/-- The dropna call on the isrc column followed by
`reset_index` (lines 112-113): keep exactly the rows whose `isrc` is not
null. The empty string is not null, so it is kept. -/
def filteredCatalog (df : List TrackRecord) : List TrackRecord :=
  df.filter (fun r => r.isrc.isSome)

/-- The isin membership test of the isrc column against the unclaimed
set, applied to one row (line 116). -/
def isrcMatches (s : Finset String) (r : TrackRecord) : Bool :=
  match r.isrc with
  | some i => decide (i ∈ s)
  | none => false

/-- `matches_df` (line 116): the rows of the already-filtered catalog
whose isrc is a member of the unclaimed set. -/
def matchesOf (df : List TrackRecord) (s : Finset String) : List TrackRecord :=
  (filteredCatalog df).filter (isrcMatches s)

/-- The two sheets written by the `ExcelWriter` block (lines 120-122). -/
structure OutputFile where
  allSheet : List TrackRecord
  matchesSheet : List TrackRecord
deriving DecidableEq

/-- Result of one run of `main`: filesystem state afterwards, the output
spreadsheet file (`none` = absent), and whether an exception escaped. -/
structure RunResult where
  fs : FsState
  output : Option OutputFile
  crashed : Bool
deriving DecidableEq

/-- `main()` (lines 98-124), modelled as `mainRun`: run the loader; on a `None` result return
early (lines 104-105); run the fetcher; on a `None` result return early
(lines 109-110); otherwise filter, match, and write the spreadsheet.
`out0` is the state of the output file before the run; it changes only when
the write at lines 120-122 is reached. An exception escaping the loader
propagates out of the driver before the fetcher runs. -/
def mainRun (st : FsState) (env : FetchEnv) (out0 : Option OutputFile) : RunResult :=
  match load_or_create_isrc_set st with
  | (.exn, st1) => ⟨st1, out0, true⟩
  | (.ret none, st1) => ⟨st1, out0, false⟩
  | (.ret (some s), st1) =>
    match get_artist_catalog_fast env with
    | none => ⟨st1, out0, false⟩
    | some df => ⟨st1, some ⟨filteredCatalog df, matchesOf df s⟩, false⟩

/-! ## Helper lemmas -/

/-- Membership after one step of the scan loop. -/
lemma mem_addIsrc (s : Finset String) (row : Row) (x : String) :
    x ∈ addIsrc s row ↔ x ∈ s ∨ (row.lookup "ISRC" = some x ∧ x ≠ "") := by
  unfold addIsrc
  cases h : row.lookup "ISRC" with
  | none => simp
  | some i =>
    by_cases hi : i = ""
    · subst hi
      simp only [if_pos rfl, Option.some_inj]
      constructor
      · exact Or.inl
      · rintro (hx | ⟨hx, hne⟩)
        · exact hx
        · exact absurd hx.symm hne
    · simp only [if_neg hi, Finset.mem_insert, Option.some_inj]
      constructor
      · rintro (hx | hx)
        · exact Or.inr ⟨hx.symm, hx ▸ hi⟩
        · exact Or.inl hx
      · rintro (hx | ⟨hx, _⟩)
        · exact Or.inr hx
        · exact Or.inl hx.symm

/-- Membership in the fold over the rows, for any accumulator. -/
lemma mem_foldl_addIsrc (rows : List Row) (acc : Finset String) (x : String) :
    x ∈ rows.foldl addIsrc acc ↔
      x ∈ acc ∨ ∃ row ∈ rows, row.lookup "ISRC" = some x ∧ x ≠ "" := by
  induction rows generalizing acc with
  | nil => simp
  | cons r rest ih =>
    rw [List.foldl_cons, ih, mem_addIsrc]
    simp only [List.mem_cons]
    constructor
    · rintro ((hx | hx) | ⟨row, hrow, hP⟩)
      · exact Or.inl hx
      · exact Or.inr ⟨r, Or.inl rfl, hx⟩
      · exact Or.inr ⟨row, Or.inr hrow, hP⟩
    · rintro (hx | ⟨row, hrow | hrow, hP⟩)
      · exact Or.inl (Or.inl hx)
      · exact Or.inl (Or.inr (hrow ▸ hP))
      · exact Or.inr ⟨row, hrow, hP⟩

/-- The isin test succeeds exactly when the row has an isrc in the set. -/
lemma isrcMatches_iff (s : Finset String) (r : TrackRecord) :
    isrcMatches s r = true ↔ ∃ i, r.isrc = some i ∧ i ∈ s := by
  obtain ⟨n, a, d, o⟩ := r
  cases o <;> simp [isrcMatches]

/-- The batches concatenate back to the original id list. -/
lemma batchChunks_join (l : List String) : (batchChunks l).flatten = l := by
  induction l using batchChunks.induct with
  | case1 => simp [batchChunks]
  | case2 a rest ih =>
    rw [batchChunks, List.flatten_cons, ih]
    have hdrop : (a :: rest).drop 50 = rest.drop 49 := rfl
    rw [← hdrop, List.take_append_drop]

/-- Every batch holds at most 50 ids. -/
lemma batchChunks_le (l : List String) :
    ∀ c ∈ batchChunks l, c.length ≤ 50 := by
  induction l using batchChunks.induct with
  | case1 => simp [batchChunks]
  | case2 a rest ih =>
    rw [batchChunks]
    intro c hc
    rcases List.mem_cons.mp hc with h | h
    · subst h
      exact List.length_take_le _ _
    · exact ih c h

/-! ## Claim theorems -/

/-- C1: for every catalog table and identifier set, the match subset
computed at line 116 is a sublist (hence subset) of the filtered catalog
of lines 112-113, and a row belongs to the match subset exactly when it
belongs to the filtered catalog and its isrc is a member of the set. -/
theorem matchSubset_exact_correspondence (df : List TrackRecord) (s : Finset String) :
    (matchesOf df s).Sublist (filteredCatalog df) ∧
    ∀ r, r ∈ matchesOf df s ↔
      r ∈ filteredCatalog df ∧ ∃ i, r.isrc = some i ∧ i ∈ s := by
  constructor
  · exact List.filter_sublist _
  · intro r
    rw [matchesOf, List.mem_filter, isrcMatches_iff]

/-- C2: on a cache miss over a well-formed reference file, the loader
returns exactly the set of distinct non-empty ISRC values of the data
rows: duplicates collapse, rows with an empty or missing ISRC cell are
skipped. -/
theorem loader_builds_exact_set (rows : List Row) (x : String) :
    (load_or_create_isrc_set ⟨none, some (.wellFormed rows), true⟩).1
      = .ret (some (buildIsrcSet rows)) ∧
    (x ∈ buildIsrcSet rows ↔
      ∃ row ∈ rows, row.lookup "ISRC" = some x ∧ x ≠ "") := by
  refine ⟨rfl, ?_⟩
  rw [buildIsrcSet, mem_foldl_addIsrc]
  simp

/-- C3: whenever the cache artifact exists and deserializes to a set, the
loader returns exactly that set and leaves the state — in particular the
reference file, quantified over arbitrary contents here — untouched, so
the result never depends on the reference file. -/
theorem cache_always_wins (s : Finset String) (rf : Option RefFile) (wOk : Bool) :
    load_or_create_isrc_set ⟨some (.valid s), rf, wOk⟩
      = (.ret (some s), ⟨some (.valid s), rf, wOk⟩) := rfl

/-- C4 counterexample: a row whose isrc is the empty string survives the
dropna filter of line 112 and, when the empty string is in the identifier
set, even appears in the match subset — refuting the claim that
empty-identifier rows never appear in either. -/
theorem emptyIsrc_row_not_dropped :
    (⟨"t", "a", "2020", some ""⟩ : TrackRecord) ∈
      filteredCatalog [⟨"t", "a", "2020", some ""⟩] ∧
    (⟨"t", "a", "2020", some ""⟩ : TrackRecord) ∈
      matchesOf [⟨"t", "a", "2020", some ""⟩] {""} := by
  exact ⟨by decide, by decide⟩

/-- C4 amended: rows whose identifier is absent (null) never appear in
the filtered catalog nor in the match subset; rows carrying the empty
string are not excluded by the filter. -/
theorem absentIsrc_rows_dropped (df : List TrackRecord) (s : Finset String) :
    (filteredCatalog df).all (fun r => r.isrc.isSome) = true ∧
    (matchesOf df s).all (fun r => r.isrc.isSome) = true := by
  refine ⟨?_, ?_⟩
  · rw [List.all_eq_true]
    intro r hr
    exact (List.mem_filter.mp hr).2
  · rw [List.all_eq_true]
    intro r hr
    exact (List.mem_filter.mp (List.mem_filter.mp hr).1).2

/-- C5 counterexample: with a corrupt cache artifact the loader raises an
uncaught exception — the unpickling at lines 32-33 sits outside the try
block — instead of logging and returning the None sentinel. -/
theorem corrupt_cache_raises :
    (load_or_create_isrc_set ⟨some .corrupt, some (.wellFormed []), true⟩).1 = .exn ∧
    (load_or_create_isrc_set ⟨some .corrupt, some (.wellFormed []), true⟩).1 ≠
      .ret none := by
  exact ⟨rfl, by decide⟩

/-- C5 amended: an absent or malformed reference file is caught inside
the loader and turned into a None return, but a corrupt cache artifact is
not: the exception propagates uncaught out of the loader. -/
theorem loader_error_boundaries (rf : Option RefFile) (wOk : Bool) :
    (load_or_create_isrc_set ⟨none, none, wOk⟩).1 = .ret none ∧
    (load_or_create_isrc_set ⟨none, some .malformed, wOk⟩).1 = .ret none ∧
    (load_or_create_isrc_set ⟨some .corrupt, rf, wOk⟩).1 = .exn :=
  ⟨rfl, rfl, rfl⟩

/-- C6: when any call of the fetch body raises — authentication, any
pagination step, any track listing or batch lookup — the fetcher returns
None and the driver leaves the output spreadsheet exactly as it was. -/
theorem fetch_failure_no_output (st : FsState) (env : FetchEnv)
    (out0 : Option OutputFile) (h : fetchBody env = .error ()) :
    get_artist_catalog_fast env = none ∧ (mainRun st env out0).output = out0 := by
  have hget : get_artist_catalog_fast env = none := by
    rw [get_artist_catalog_fast, h]
  refine ⟨hget, ?_⟩
  rw [mainRun]
  rcases hld : load_or_create_isrc_set st with ⟨res, st1⟩
  match res with
  | .exn => rfl
  | .ret none => rfl
  | .ret (some s) => rw [hget]

/-- An environment whose release listing raises on the second page. -/
def midPaginationEnv : FetchEnv :=
  ⟨.ok (), .ok (.more [⟨"album1"⟩] (.error ())),
    fun _ => .ok ["t1"],
    fun c => .ok (c.map (fun i => some ⟨i, "alb", "2020", some "QZ123"⟩))⟩

/-- C6 witness: a concrete run whose pagination raises mid-way produces
no catalog and writes no output file. -/
theorem fetch_failure_no_output_witness :
    fetchBody midPaginationEnv = .error () ∧
    (get_artist_catalog_fast midPaginationEnv = none ∧
      (mainRun ⟨none, some (.wellFormed []), true⟩ midPaginationEnv none).output
        = none) :=
  ⟨rfl, fetch_failure_no_output ⟨none, some (.wellFormed []), true⟩
    midPaginationEnv none rfl⟩

/-- C7: processing a batch response skips exactly the absent entries:
the records produced are the present entries, in order, each extracted
into a track record — so one absent entry never aborts the batch. -/
theorem absent_details_skipped (resp : List (Option TrackDetail)) :
    processBatchResponse resp = (resp.filterMap id).map extractRecord := by
  induction resp with
  | nil => rfl
  | cons o rest ih => cases o <;> simp [processBatchResponse, ih]

/-- C8: the batching of the collected track ids yields consecutive
chunks of at most 50 keys whose concatenation in request order is the
original key list, so every collected key occurrence lands in exactly
one batch. -/
theorem batching_exact (ids : List String) :
    (batchChunks ids).flatten = ids ∧
    (batchChunks ids).all (fun c => decide (c.length ≤ 50)) = true := by
  refine ⟨batchChunks_join ids, ?_⟩
  rw [List.all_eq_true]
  intro c hc
  simpa using batchChunks_le ids c hc

/-- C9: a cache-miss run over a well-formed reference file returns the
built set, stores exactly that set in the cache artifact, and after the
artifact is deleted a re-run over the unchanged reference file returns
the same result. -/
theorem rebuild_idempotent (rows : List Row) :
    (load_or_create_isrc_set ⟨none, some (.wellFormed rows), true⟩).1
      = .ret (some (buildIsrcSet rows)) ∧
    (load_or_create_isrc_set ⟨none, some (.wellFormed rows), true⟩).2.cache
      = some (.valid (buildIsrcSet rows)) ∧
    (load_or_create_isrc_set
        ⟨none,
         (load_or_create_isrc_set ⟨none, some (.wellFormed rows), true⟩).2.refFile,
         true⟩).1
      = (load_or_create_isrc_set ⟨none, some (.wellFormed rows), true⟩).1 :=
  ⟨rfl, rfl, rfl⟩

/-- C10: if the cache write fails after a fully successful scan, the
loader discards the built set and returns the None sentinel, and the
driver aborts without touching the output spreadsheet. -/
theorem cache_write_failure_aborts (rows : List Row) (env : FetchEnv)
    (out0 : Option OutputFile) :
    (load_or_create_isrc_set ⟨none, some (.wellFormed rows), false⟩).1 = .ret none ∧
    (mainRun ⟨none, some (.wellFormed rows), false⟩ env out0).output = out0 :=
  ⟨rfl, rfl⟩
